import Mathlib

/-!
Verification development for the stage-progression workflow of the
`my-awesome-agent` repository.

The embedding below translates, into Lean, the Python modules
`app/agents/tools.py`, `app/callbacks/stage_transition.py`,
`app/connection_manager.py` and `app/agents/consultant.py`.

Python dictionaries are modelled as association lists with unique keys
(insertion order preserved, as in Python).  Python exceptions are modelled
with `Except`: a function that can propagate an exception to its caller
returns `Except.error`, a function that catches them always returns
`Except.ok`.  Python string operations (`in`, `lower`, `split`, `strip`,
`replace`, slicing) are modelled directly on the character lists of Lean
strings.
-/

/-! ## Python dictionary primitives (association lists, unique keys) -/

/-- Lookup of a key in an association list (first match; with unique keys
this is exactly a Python dict read). -/
def lookupKey {V : Type} (d : List (String × V)) (k : String) : Option V :=
  match d with
  | [] => none
  | (k', v) :: rest => if k' = k then some v else lookupKey rest k

/-- Python `d[k] = v`: replace the value at `k` in place, or append a new
binding at the end (Python dicts keep insertion order). -/
def setKey {V : Type} (d : List (String × V)) (k : String) (v : V) : List (String × V) :=
  match d with
  | [] => [(k, v)]
  | (k', v') :: rest => if k' = k then (k, v) :: rest else (k', v') :: setKey rest k v

/-- Python `d.update(f)`: fold the bindings of `f` into `d`, each one
overwriting an existing binding of the same key. -/
def dictUpdate {V : Type} (d f : List (String × V)) : List (String × V) :=
  f.foldl (fun acc kv => setKey acc kv.1 kv.2) d

/-! ## Python string primitives -/

/-- Does the character list `hay` start with `needle`? -/
def leadsL (needle hay : List Char) : Bool :=
  match needle, hay with
  | [], _ => true
  | _ :: _, [] => false
  | a :: as_, b :: bs => a = b && leadsL as_ bs

/-- Does `needle` occur contiguously inside `hay`? -/
def occursL (needle hay : List Char) : Bool :=
  match hay with
  | [] => leadsL needle []
  | _ :: rest => leadsL needle hay || occursL needle rest

/-- Python `needle in hay` on strings. -/
def pyIn (needle hay : String) : Bool :=
  occursL needle.data hay.data

/-- Python `s.lower()` (ASCII case folding, which is all the source uses). -/
def pyLower (s : String) : String :=
  String.mk (s.data.map Char.toLower)

/-- Split on a single separator character, keeping empty pieces, exactly
like Python `s.split(sep)` for a one-character separator. -/
def splitL (sep : Char) (l : List Char) : List (List Char) :=
  match l with
  | [] => [[]]
  | c :: rest =>
    let r := splitL sep rest
    if c = sep then [] :: r
    else
      match r with
      | h :: t => (c :: h) :: t
      | [] => [[c]]

/-- Python `s.split(sep)` for a one-character separator. -/
def pySplit (s : String) (sep : Char) : List String :=
  (splitL sep s.data).map String.mk

/-- The whitespace characters stripped by Python `str.strip()`. -/
def isSpaceChar (c : Char) : Bool :=
  c = ' ' || c = '\t' || c = '\n' || c = '\r' || c = '\x0b' || c = '\x0c'

/-- Python `s.strip()`. -/
def pyStrip (s : String) : String :=
  String.mk (((s.data.dropWhile isSpaceChar).reverse.dropWhile isSpaceChar).reverse)

/-- Replace every occurrence of the non-empty pattern `old` by `new`,
scanning left to right, like Python `s.replace(old, new)` (the source only
ever replaces non-empty patterns). -/
def replaceL (old new : List Char) (l : List Char) : List Char :=
  if hold : old = [] then l
  else
    match l with
    | [] => []
    | c :: rest =>
      if leadsL old (c :: rest) then new ++ replaceL old new ((c :: rest).drop old.length)
      else c :: replaceL old new rest
termination_by l.length
decreasing_by
  · simp only [List.length_drop, List.length_cons]
    have : 0 < old.length := List.length_pos.mpr hold
    omega
  · simp only [List.length_cons]
    omega

/-- Python `s.replace(old, new)`. -/
def pyReplace (s old new : String) : String :=
  String.mk (replaceL old.data new.data s.data)

/-- Python `len(s)`. -/
def pyLen (s : String) : Nat :=
  s.data.length

/-- Python `s[:n]`. -/
def pyTake (s : String) (n : Nat) : String :=
  String.mk (s.data.take n)

/-! ## Session state

`tool_context.state` / `callback_context.state` is one per-session Python
dict.  The code only ever touches the fixed set of keys below, so the dict
is embedded as a structure: an `Option` field is `none` when the key is
absent; `outputs` gathers the per-stage free-text output keys
(`company_context`, `project_overview`, ...), each read with default `""`. -/

/-- A Python scalar value stored as an extracted fact. -/
inductive PyVal where
  | s (v : String)
  | i (v : Int)
  | b (v : Bool)
deriving DecidableEq

/-- One entry of `stage_completion` as written by
`stage_transition_callback`. -/
structure StageRecord where
  completed : Bool
  timestamp : String
  event_count : Nat
deriving DecidableEq

/-- The session-state keys read or written by the embedded code. -/
structure SessionState where
  current_stage_index : Option Int
  is_resuming : Option Bool
  workflow_status : Option String
  discovery_completed : Option Bool
  extracted_data : Option (List (String × PyVal))
  stage_completion : Option (List (String × StageRecord))
  turn_count : Option Int
  current_stage_name : Option String
  outputs : List (String × String)
  company_research_results : Option String
deriving DecidableEq

/-! ## `app/agents/tools.py` -/

/-- `get_current_stage`: reads `current_stage_index` with default 0,
writes the default back when the key was absent, and returns the index as
a string. -/
def get_current_stage (s : SessionState) : String × SessionState :=
  let idx : Int := s.current_stage_index.getD 0
  let s' := if s.current_stage_index = none then { s with current_stage_index := some 0 } else s
  (toString idx, s')

/-- `finalize_discovery`: unconditionally marks the workflow completed and
forces the stage index to the terminal value 6. -/
def finalize_discovery (s : SessionState) : SessionState × String :=
  let s := { s with workflow_status := some ("COMPLETED") }
  let s := { s with discovery_completed := some true }
  let s := { s with current_stage_index := some 6 }
  (s, "✅ Discovery complete! Triggering BRD generation...")

/-- The resumption control message returned by `advance_stage` while
`is_resuming` is truthy. -/
def resumptionMessage : String :=
  "SYSTEM_NOTE: Resumption in progress. Please ignore any previous completion signals from history. Introduce yourself to the user and wait for their input before completing this stage."

/-- The rejection message for a stale or hallucinated `advance_stage` call. -/
def mismatchMessage (stage_index current_stage : Int) : String :=
  "SYSTEM_NOTE: You are attempting to complete Stage " ++ toString stage_index ++
  ", but the project is already at Stage " ++ toString current_stage ++
  ". Please wait for the user instructions or just say \x27I am ready when you are\x27."

/-- The directive message returned by a validated `advance_stage` call. -/
def advanceMessage (stage_index next_stage : Int) : String :=
  "SYSTEM_NOTE: Stage " ++ toString stage_index ++ " advanced to " ++ toString next_stage ++
  ". ROUTER ACTION REQUIRED: Immediately Transfer to the Stage " ++ toString next_stage ++
  " agent and force them to introduce themselves. Do not wait for user input."

/-- `advance_stage`: validates the caller-asserted stage against the
persisted `current_stage_index` (default 0), blocking during resumption and
rejecting mismatches without mutation; a validated call increments the
index by one.  The frontend push inside the Python function is
fire-and-forget: it never touches the session state and all its exceptions
are caught, so it does not appear in the state transition. -/
def advance_stage (s : SessionState) (stage_index : Int) : SessionState × String :=
  let current_stage : Int := s.current_stage_index.getD 0
  if s.is_resuming.getD false then
    (s, resumptionMessage)
  else if current_stage ≠ stage_index then
    (s, mismatchMessage stage_index current_stage)
  else
    let next_stage := current_stage + 1
    ({ s with current_stage_index := some next_stage }, advanceMessage stage_index next_stage)

/-- `complete_program_explanation`. -/
def complete_program_explanation (s : SessionState) : SessionState × String :=
  advance_stage s 0

/-- `complete_payment_structure`. -/
def complete_payment_structure (s : SessionState) : SessionState × String :=
  advance_stage s 1

/-- `complete_current_workflow`. -/
def complete_current_workflow (s : SessionState) : SessionState × String :=
  advance_stage s 2

/-- `complete_problem_statement`. -/
def complete_problem_statement (s : SessionState) : SessionState × String :=
  advance_stage s 3

/-- `complete_solution_vision`. -/
def complete_solution_vision (s : SessionState) : SessionState × String :=
  advance_stage s 4

/-- `complete_success_criteria`. -/
def complete_success_criteria (s : SessionState) : SessionState × String :=
  advance_stage s 5

/-- The truthiness of `state.get("is_resuming")`. -/
def isResuming (s : SessionState) : Bool :=
  s.is_resuming.getD false

/-- The persisted stage index as `advance_stage` reads it (default 0). -/
def csi (s : SessionState) : Int :=
  s.current_stage_index.getD 0

/-- Run a sequence of `advance_stage` calls, keeping only the state. -/
def runAdvances (s : SessionState) (calls : List Int) : SessionState :=
  calls.foldl (fun t i => (advance_stage t i).1) s

/-! ## `app/callbacks/stage_transition.py` -/

/-- `_extract_company_facts`: keyword-presence heuristics over the company
context concatenated with the research results. -/
def _extract_company_facts (company_context research_results : String) : List (String × PyVal) :=
  let text := company_context ++ " " ++ research_results
  let nameFacts : List (String × PyVal) :=
    if pyIn ("NxtWave") text || pyIn ("Nestwave") text then
      if pyIn ("NxtWave Disruptive Technologies") text then
        [("company_name", PyVal.s ("NxtWave Disruptive Technologies"))]
      else if pyIn ("Nestwave") text then
        [("company_name", PyVal.s ("Nestwave"))]
      else []
    else []
  let industryFacts : List (String × PyVal) :=
    if pyIn ("IoT") text || pyIn ("geolocation") text then
      [("industry", PyVal.s ("IoT / Geolocation"))]
    else if pyIn ("education") (pyLower text) || pyIn ("tech careers") (pyLower text) then
      [("industry", PyVal.s ("EdTech / Career Development"))]
    else []
  let audienceFacts : List (String × PyVal) :=
    if pyIn ("students") (pyLower text) && pyIn ("professionals") (pyLower text) then
      [("target_audience", PyVal.s ("Students and professionals seeking tech careers"))]
    else if pyIn ("IoT applications") text then
      [("target_audience", PyVal.s ("IoT device manufacturers"))]
    else []
  nameFacts ++ industryFacts ++ audienceFacts

/-- `_extract_project_facts`: first substantial line becomes the project
name; keyword presence selects a project type. -/
def _extract_project_facts (project_overview : String) : List (String × PyVal) :=
  let lines := pySplit project_overview '\n'
  let nameFacts : List (String × PyVal) :=
    match lines.find? (fun line =>
        decide (10 < pyLen (pyStrip line) ∧ pyLen (pyStrip line) < 100)) with
    | some line =>
      [("project_name", PyVal.s (pyReplace (pyReplace (pyStrip line) ("#") ("")) ("**") ("")))]
    | none => []
  let text_lower := pyLower project_overview
  let typeFacts : List (String × PyVal) :=
    if pyIn ("platform") text_lower then [("project_type", PyVal.s ("Platform"))]
    else if pyIn ("application") text_lower || pyIn ("app") text_lower then
      [("project_type", PyVal.s ("Application"))]
    else if pyIn ("system") text_lower then [("project_type", PyVal.s ("System"))]
    else []
  nameFacts ++ typeFacts

/-- The pain-point vocabulary of `_extract_workflow_facts`. -/
def pain_point_keywords : List String :=
  ["problem", "issue", "difficult", "slow", "manual", "time-consuming", "inefficient"]

/-- `_extract_workflow_facts`: counts pain-point keywords. -/
def _extract_workflow_facts (workflow_desc : String) : List (String × PyVal) :=
  let text_lower := pyLower workflow_desc
  let pain_points_count := pain_point_keywords.countP (fun keyword => pyIn keyword text_lower)
  if 0 < pain_points_count then
    [("pain_points_identified", PyVal.i (Int.ofNat pain_points_count)),
     ("has_pain_points", PyVal.b true)]
  else []

/-- `_extract_problem_facts`: the first sentence, truncated to 150
characters, becomes the problem summary. -/
def _extract_problem_facts (problem_statement : String) : List (String × PyVal) :=
  let sentences := pySplit problem_statement '.'
  match sentences with
  | [] => []
  | s0 :: _ => [("problem_summary", PyVal.s (pyTake (pyStrip s0) 150))]

/-- `_extract_solution_facts`: first-sentence summary plus an AI flag. -/
def _extract_solution_facts (solution_vision : String) : List (String × PyVal) :=
  let sentences := pySplit solution_vision '.'
  let summaryFacts : List (String × PyVal) :=
    match sentences with
    | [] => []
    | s0 :: _ => [("solution_summary", PyVal.s (pyTake (pyStrip s0) 150))]
  let text_lower := pyLower solution_vision
  let aiFacts : List (String × PyVal) :=
    if pyIn ("ai") text_lower || pyIn ("machine learning") text_lower || pyIn ("ml") text_lower then
      [("uses_ai", PyVal.b true)]
    else []
  summaryFacts ++ aiFacts

/-- The KPI vocabulary of `_extract_criteria_facts`. -/
def kpi_keywords : List String :=
  ["metric", "kpi", "measure", "%", "percentage", "time", "cost", "revenue"]

/-- `_extract_criteria_facts`: counts KPI keywords. -/
def _extract_criteria_facts (success_criteria : String) : List (String × PyVal) :=
  let text_lower := pyLower success_criteria
  let kpis_mentioned := kpi_keywords.countP (fun keyword => pyIn keyword text_lower)
  if 0 < kpis_mentioned then
    [("kpis_defined", PyVal.b true),
     ("kpi_count_estimate", PyVal.i (Int.ofNat kpis_mentioned))]
  else []

/-- The static `agent name → output key` table of
`_extract_key_facts_for_stage`. -/
def output_key_map : List (String × String) :=
  [("CompanyContext", "company_context"),
   ("ProjectOverview", "project_overview"),
   ("CurrentWorkflow", "current_workflow"),
   ("ProblemStatement", "problem_statement"),
   ("SolutionVision", "solution_vision"),
   ("SuccessCriteria", "success_criteria"),
   ("GenerationSignoff", "generation_signoff")]

/-- `_extract_key_facts_for_stage`: unknown agent names and absent or empty
stage output yield the empty fact mapping; otherwise the stage-specific
extractor runs on the output read from the session state. -/
def _extract_key_facts_for_stage (s : SessionState) (agent_name : String) : List (String × PyVal) :=
  match lookupKey output_key_map agent_name with
  | none => []
  | some output_key =>
    let stage_output := (lookupKey s.outputs output_key).getD ("")
    if stage_output = "" then []
    else if agent_name = "CompanyContext" then
      _extract_company_facts stage_output (s.company_research_results.getD (""))
    else if agent_name = "ProjectOverview" then _extract_project_facts stage_output
    else if agent_name = "CurrentWorkflow" then _extract_workflow_facts stage_output
    else if agent_name = "ProblemStatement" then _extract_problem_facts stage_output
    else if agent_name = "SolutionVision" then _extract_solution_facts stage_output
    else if agent_name = "SuccessCriteria" then _extract_criteria_facts stage_output
    else if agent_name = "GenerationSignoff" then [("signoff_confirmed", PyVal.b true)]
    else []

/-- `_initialize_state_structure`: idempotent scaffolding of
`extracted_data`, `stage_completion`, `workflow_status` and `turn_count`. -/
def _initialize_state_structure (s : SessionState) : SessionState :=
  let s1 := if s.extracted_data = none then { s with extracted_data := some [] } else s
  let s2 := if s1.stage_completion = none then { s1 with stage_completion := some [] } else s1
  let s3 := if s2.workflow_status = none then { s2 with workflow_status := some ("IN_PROGRESS") } else s2
  if s3.turn_count = none then { s3 with turn_count := some 0 } else s3

/-- `stage_transition_callback`: initializes the state scaffolding,
extracts facts for the completing stage, merges a non-empty fact mapping
into `extracted_data` via dict update, marks the stage completed with a
timestamp and the count of events authored by the stage, then records the
stage name and bumps `turn_count`.  `events` is the list of authors of the
session events; `now` is the timestamp string. -/
def stage_transition_callback (s : SessionState) (agent_name : String)
    (events : List String) (now : String) : SessionState :=
  let s1 := _initialize_state_structure s
  let extracted_facts := _extract_key_facts_for_stage s1 agent_name
  let s2 :=
    if extracted_facts ≠ [] then
      { s1 with extracted_data := some (dictUpdate (s1.extracted_data.getD []) extracted_facts) }
    else s1
  let record : StageRecord := ⟨true, now, events.countP (fun e => decide (e = agent_name))⟩
  let s3 := { s2 with stage_completion := some (setKey (s2.stage_completion.getD []) agent_name record) }
  { s3 with current_stage_name := some agent_name,
            turn_count := some (s3.turn_count.getD 0 + 1) }

/-! ## `app/connection_manager.py`

Websocket handles are modelled as natural numbers; the untrusted transport
layer (`websocket.send_json`) is a parameter that may fail with
`Except.error`.  `send_json` returns the list of successful deliveries and
the log lines it emits, wrapped in `Except` so that "raises to the caller"
is representable — the theorems show it never happens. -/

/-- A message pushed over a websocket. -/
inductive PushMessage where
  | stageUpdate (current_stage : Int)
  | payload (text : String)
deriving DecidableEq

/-- The registry of active connections, keyed by session id. -/
structure ConnectionManager where
  active_connections : List (String × Nat)
deriving DecidableEq

/-- Python `del d[k]` on an association list with unique keys. -/
def removeKey {V : Type} (d : List (String × V)) (k : String) : List (String × V) :=
  match d with
  | [] => []
  | (k', v) :: rest => if k' = k then rest else (k', v) :: removeKey rest k

/-- `ConnectionManager.connect`: register (or overwrite) the connection for
a session id. -/
def ConnectionManager.connect (m : ConnectionManager) (session_id : String)
    (websocket : Nat) : ConnectionManager :=
  ⟨setKey m.active_connections session_id websocket⟩

/-- `ConnectionManager.disconnect`: remove the mapping if present. -/
def ConnectionManager.disconnect (m : ConnectionManager) (session_id : String) : ConnectionManager :=
  if (lookupKey m.active_connections session_id).isSome then
    ⟨removeKey m.active_connections session_id⟩
  else m

/-- `ConnectionManager.send_json`: look up the session, attempt one send on
its websocket, catch any transport error and log it.  Returns the
deliveries that reached a websocket and the log lines. -/
def ConnectionManager.send_json (m : ConnectionManager)
    (transport : Nat → PushMessage → Except String Unit)
    (session_id : String) (message : PushMessage) :
    Except String (List (Nat × PushMessage) × List String) :=
  match lookupKey m.active_connections session_id with
  | some websocket =>
    match transport websocket message with
    | Except.ok _ =>
      Except.ok ([(websocket, message)], ["Sent message to session " ++ session_id])
    | Except.error e =>
      Except.ok ([], ["Failed to send message to session " ++ session_id ++ ": " ++ e])
  | none =>
    Except.ok ([], ["Attempted to send to non-existent session: " ++ session_id])

/-- `ConnectionManager.send_stage_update`: the canonical stage-update
payload pushed through `send_json`. -/
def ConnectionManager.send_stage_update (m : ConnectionManager)
    (transport : Nat → PushMessage → Except String Unit)
    (session_id : String) (stage_index : Int) :
    Except String (List (Nat × PushMessage) × List String) :=
  m.send_json transport session_id (PushMessage.stageUpdate stage_index)

/-! ## `app/agents/consultant.py` — startup stage-configuration validation

The filesystem is abstracted as the lists of existing paths and of regular
files; `STAGES_CONFIG` is the externally supplied list of stage entries,
each field `Option`-valued because the JSON objects may omit fields. -/

/-- One entry of the external stage configuration file. -/
structure StageConfigEntry where
  id : Option Int
  instruction_file : Option String
  description : Option String
  tool_name : Option String
  output_key : Option String
deriving DecidableEq

/-- The filesystem as seen by `validate_stage_config`. -/
structure FileSystem where
  existing : List String
  files : List String
deriving DecidableEq

/-- The keys of `TOOLS_MAP` in `consultant.py`. -/
def TOOLS_MAP_keys : List String :=
  ["complete_program_explanation", "complete_payment_structure"]

/-- `INSTRUCTIONS_DIR / instruction_file`. -/
def instructionPath (f : String) : String :=
  "app/instructions/" ++ f

/-- The id field rendered for error messages (the Python dict read with default unknown). -/
def stageIdLabel (stage : StageConfigEntry) : String :=
  match stage.id with
  | some n => toString n
  | none => "unknown"

/-- The instruction-file checks of `validate_stage_config` for one stage
(the Python dict read of the instruction file is falsy when absent or empty). -/
def instructionFileErrors (fs : FileSystem) (stage : StageConfigEntry) : List String :=
  match stage.instruction_file with
  | none => ["Stage " ++ stageIdLabel stage ++ ": Missing \x27instruction_file\x27 in config"]
  | some f =>
    if f = "" then
      ["Stage " ++ stageIdLabel stage ++ ": Missing \x27instruction_file\x27 in config"]
    else
      let p := instructionPath f
      if ¬ p ∈ fs.existing then
        ["Stage " ++ stageIdLabel stage ++ ": Instruction file not found: " ++ p]
      else if ¬ p ∈ fs.files then
        ["Stage " ++ stageIdLabel stage ++ ": Instruction path is not a file: " ++ p]
      else []

/-- The tool-name checks of `validate_stage_config` for one stage. -/
def toolNameErrors (stage : StageConfigEntry) : List String :=
  match stage.tool_name with
  | none => ["Stage " ++ stageIdLabel stage ++ ": Missing \x27tool_name\x27 in config"]
  | some t =>
    if t = "" then
      ["Stage " ++ stageIdLabel stage ++ ": Missing \x27tool_name\x27 in config"]
    else if t ∈ TOOLS_MAP_keys then []
    else
      ["Stage " ++ stageIdLabel stage ++ ": Tool \x27" ++ t ++ "\x27 not found in TOOLS_MAP"]

/-- All validation errors produced for one stage entry. -/
def stageErrors (fs : FileSystem) (stage : StageConfigEntry) : List String :=
  instructionFileErrors fs stage ++ toolNameErrors stage

/-- The aggregated error list: the loop in `validate_stage_config` visits
every stage entry and appends its errors. -/
def validationErrors (fs : FileSystem) : List StageConfigEntry → List String
  | [] => []
  | stage :: rest => stageErrors fs stage ++ validationErrors fs rest

/-- `validate_stage_config`: raises `ValueError` (modelled as
`Except.error`) once, with every aggregated error, when any error was
found; otherwise returns normally. -/
def validate_stage_config (fs : FileSystem) (config : List StageConfigEntry) : Except String Unit :=
  let errors := validationErrors fs config
  if errors = [] then Except.ok ()
  else
    Except.error ("\n❌ Stage configuration validation failed:\n" ++
      String.intercalate ("\n") (errors.map (fun err => "  - " ++ err)))

/-- The invariant claimed by the spec for stage ids: contiguous values
starting at 0. -/
def idsContiguousFrom0 (config : List StageConfigEntry) : Prop :=
  config.map StageConfigEntry.id = (List.range config.length).map (fun n => some (Int.ofNat n))

/-- What the startup validation actually enforces for one stage entry:
a present, non-empty instruction file whose path exists and is a regular
file, and a present, non-empty tool name registered in `TOOLS_MAP`. -/
def stageValid (fs : FileSystem) (stage : StageConfigEntry) : Prop :=
  (∃ f, stage.instruction_file = some f ∧ f ≠ "" ∧
      instructionPath f ∈ fs.existing ∧ instructionPath f ∈ fs.files) ∧
  (∃ t, stage.tool_name = some t ∧ t ≠ "" ∧ t ∈ TOOLS_MAP_keys)

/-! ## Helper lemmas on the dictionary primitives -/

theorem lookupKey_setKey_self {V : Type} (d : List (String × V)) (k : String) (v : V) :
    lookupKey (setKey d k v) k = some v := by
  induction d with
  | nil => simp [setKey, lookupKey]
  | cons kv rest ih =>
    by_cases h : kv.1 = k
    · simp [setKey, lookupKey, h]
    · simp [setKey, lookupKey, h, ih]

theorem lookupKey_setKey_ne {V : Type} (d : List (String × V)) (k k' : String) (v : V)
    (h : k' ≠ k) : lookupKey (setKey d k v) k' = lookupKey d k' := by
  induction d with
  | nil => simp [setKey, lookupKey, Ne.symm h]
  | cons kv rest ih =>
    by_cases hk : kv.1 = k
    · simp [setKey, lookupKey, hk, Ne.symm h]
    · simp [setKey, lookupKey, hk, ih]

theorem lookupKey_eq_none_of_not_mem {V : Type} (d : List (String × V)) (k : String)
    (h : k ∉ d.map Prod.fst) : lookupKey d k = none := by
  induction d with
  | nil => rfl
  | cons kv rest ih =>
    simp only [List.map_cons, List.mem_cons] at h
    push_neg at h
    simp [lookupKey, Ne.symm h.1, ih h.2]

theorem mem_of_lookupKey_some {V : Type} (d : List (String × V)) (k : String) (v : V)
    (h : lookupKey d k = some v) : k ∈ d.map Prod.fst := by
  induction d with
  | nil => simp [lookupKey] at h
  | cons kv rest ih =>
    simp only [lookupKey] at h
    by_cases hk : kv.1 = k
    · simp [hk]
    · simp only [hk, if_false] at h
      simp [ih h]

theorem lookupKey_dictUpdate_of_none {V : Type} (d f : List (String × V)) (k : String)
    (h : lookupKey f k = none) : lookupKey (dictUpdate d f) k = lookupKey d k := by
  induction f generalizing d with
  | nil => rfl
  | cons kv rest ih =>
    simp only [lookupKey] at h
    by_cases hk : kv.1 = k
    · simp [hk] at h
    · simp only [hk, if_false] at h
      show lookupKey (dictUpdate (setKey d kv.1 kv.2) rest) k = lookupKey d k
      rw [ih _ h, lookupKey_setKey_ne _ _ _ _ (fun hh => hk hh.symm)]

theorem lookupKey_dictUpdate_of_some {V : Type} (d f : List (String × V)) (k : String) (v : V)
    (hnd : (f.map Prod.fst).Nodup) (h : lookupKey f k = some v) :
    lookupKey (dictUpdate d f) k = some v := by
  induction f generalizing d with
  | nil => simp [lookupKey] at h
  | cons kv rest ih =>
    obtain ⟨k1, v1⟩ := kv
    simp only [List.map_cons, List.nodup_cons] at hnd
    simp only [lookupKey] at h
    have hfold : dictUpdate d ((k1, v1) :: rest) = dictUpdate (setKey d k1 v1) rest := rfl
    by_cases hk : k1 = k
    · rw [if_pos hk] at h
      injection h with hv
      subst hv
      subst hk
      have hrest : lookupKey rest k1 = none :=
        lookupKey_eq_none_of_not_mem _ _ hnd.1
      rw [hfold, lookupKey_dictUpdate_of_none _ _ _ hrest, lookupKey_setKey_self]
    · rw [if_neg hk] at h
      rw [hfold]
      exact ih (setKey d k1 v1) hnd.2 h

/-! ## Helper lemmas on `advance_stage` -/

/-- The two possible outcomes of one `advance_stage` call on the state. -/
theorem advance_stage_cases (s : SessionState) (i : Int) :
    (advance_stage s i).1 = s ∨
    ((advance_stage s i).1 = { s with current_stage_index := some (csi s + 1) } ∧
      i = csi s ∧ isResuming s = false) := by
  unfold advance_stage
  by_cases hr : s.is_resuming.getD false
  · simp [hr]
  · by_cases hm : s.current_stage_index.getD 0 ≠ i
    · simp [hr, hm]
    · push_neg at hm
      right
      simp [hr, hm, csi, isResuming]

theorem advance_stage_preserves_resuming (s : SessionState) (i : Int) :
    isResuming (advance_stage s i).1 = isResuming s := by
  rcases advance_stage_cases s i with h | ⟨h, _, _⟩ <;> rw [h] <;> rfl

theorem advance_stage_csi_le (s : SessionState) (i : Int) :
    csi s ≤ csi (advance_stage s i).1 := by
  rcases advance_stage_cases s i with h | ⟨h, _, _⟩
  · rw [h]
  · rw [h]
    show csi s ≤ csi { s with current_stage_index := some (csi s + 1) }
    simp [csi]

theorem runAdvances_csi_le (s : SessionState) (calls : List Int) :
    csi s ≤ csi (runAdvances s calls) := by
  induction calls generalizing s with
  | nil => exact le_refl _
  | cons i rest ih =>
    calc csi s ≤ csi (advance_stage s i).1 := advance_stage_csi_le s i
    _ ≤ csi (runAdvances (advance_stage s i).1 rest) := ih _

/-! ## Helper lemmas on the stage-transition callback -/

/-- Field-level description of `_initialize_state_structure`. -/
theorem init_fields (s : SessionState) :
    (_initialize_state_structure s).outputs = s.outputs ∧
    (_initialize_state_structure s).company_research_results = s.company_research_results ∧
    (_initialize_state_structure s).extracted_data = some (s.extracted_data.getD []) ∧
    (_initialize_state_structure s).stage_completion = some (s.stage_completion.getD []) ∧
    (_initialize_state_structure s).turn_count = some (s.turn_count.getD 0) := by
  obtain ⟨csix, isr, ws, dc, ed, sc, tc, csn, outs, crr⟩ := s
  cases ed <;> cases sc <;> cases ws <;> cases tc <;>
    simp [_initialize_state_structure]

/-- `stage_transition_callback` leaves the per-stage outputs untouched. -/
theorem callback_outputs (s : SessionState) (a : String) (ev : List String) (now : String) :
    (stage_transition_callback s a ev now).outputs = s.outputs := by
  unfold stage_transition_callback
  by_cases hf : _extract_key_facts_for_stage (_initialize_state_structure s) a = [] <;>
    simp [hf, (init_fields s).1]

/-- `stage_transition_callback` leaves the research results untouched. -/
theorem callback_crr (s : SessionState) (a : String) (ev : List String) (now : String) :
    (stage_transition_callback s a ev now).company_research_results =
      s.company_research_results := by
  unfold stage_transition_callback
  by_cases hf : _extract_key_facts_for_stage (_initialize_state_structure s) a = [] <;>
    simp [hf, (init_fields s).2.1]

/-- The `extracted_data` written by `stage_transition_callback`: a dict
update with the extracted facts, or the untouched previous mapping when
the extraction is empty. -/
theorem callback_extracted_data (s : SessionState) (a : String) (ev : List String) (now : String) :
    (stage_transition_callback s a ev now).extracted_data =
      some (if _extract_key_facts_for_stage (_initialize_state_structure s) a = []
            then s.extracted_data.getD []
            else dictUpdate (s.extracted_data.getD [])
                   (_extract_key_facts_for_stage (_initialize_state_structure s) a)) := by
  unfold stage_transition_callback
  by_cases hf : _extract_key_facts_for_stage (_initialize_state_structure s) a = [] <;>
    simp [hf, (init_fields s).2.2.1]

/-- The `stage_completion` entry written by `stage_transition_callback`. -/
theorem callback_stage_completion (s : SessionState) (a : String) (ev : List String) (now : String) :
    (stage_transition_callback s a ev now).stage_completion =
      some (setKey (s.stage_completion.getD []) a
        ⟨true, now, ev.countP (fun e => decide (e = a))⟩) := by
  unfold stage_transition_callback
  by_cases hf : _extract_key_facts_for_stage (_initialize_state_structure s) a = [] <;>
    simp [hf, (init_fields s).2.2.2.1]

/-! ## Nodup of extracted fact keys -/

theorem company_facts_keys_nodup (x y : String) :
    ((_extract_company_facts x y).map Prod.fst).Nodup := by
  simp only [_extract_company_facts]
  repeat' split
  all_goals simp

theorem project_facts_keys_nodup (x : String) :
    ((_extract_project_facts x).map Prod.fst).Nodup := by
  simp only [_extract_project_facts]
  repeat' split
  all_goals simp

theorem workflow_facts_keys_nodup (x : String) :
    ((_extract_workflow_facts x).map Prod.fst).Nodup := by
  simp only [_extract_workflow_facts]
  repeat' split
  all_goals simp

theorem problem_facts_keys_nodup (x : String) :
    ((_extract_problem_facts x).map Prod.fst).Nodup := by
  simp only [_extract_problem_facts]
  repeat' split
  all_goals simp

theorem solution_facts_keys_nodup (x : String) :
    ((_extract_solution_facts x).map Prod.fst).Nodup := by
  simp only [_extract_solution_facts]
  repeat' split
  all_goals simp

theorem criteria_facts_keys_nodup (x : String) :
    ((_extract_criteria_facts x).map Prod.fst).Nodup := by
  simp only [_extract_criteria_facts]
  repeat' split
  all_goals simp

/-- Every fact mapping produced by `_extract_key_facts_for_stage` has
pairwise-distinct keys (it really is a Python dict). -/
theorem extract_keys_nodup (s : SessionState) (a : String) :
    ((_extract_key_facts_for_stage s a).map Prod.fst).Nodup := by
  unfold _extract_key_facts_for_stage
  dsimp only
  repeat' split
  all_goals
    first
    | exact company_facts_keys_nodup _ _
    | exact project_facts_keys_nodup _
    | exact workflow_facts_keys_nodup _
    | exact problem_facts_keys_nodup _
    | exact solution_facts_keys_nodup _
    | exact criteria_facts_keys_nodup _
    | simp

/-! ## Sequence lemmas for the stage-progression invariant -/

theorem runAdvances_preserves_resuming (s : SessionState) (calls : List Int) :
    isResuming (runAdvances s calls) = isResuming s := by
  induction calls generalizing s with
  | nil => rfl
  | cons i l ih =>
    show isResuming (runAdvances (advance_stage s i).1 l) = isResuming s
    rw [ih, advance_stage_preserves_resuming]

theorem runAdvances_chain (s : SessionState) (calls : List Int) :
    List.Chain' (fun a b => a ≤ b)
      ((calls.scanl (fun t i => (advance_stage t i).1) s).map csi) := by
  induction calls generalizing s with
  | nil => simp
  | cons i l ih =>
    rw [List.scanl_cons]
    cases l with
    | nil =>
      simp only [List.scanl_nil, List.singleton_append, List.map_cons, List.map_nil]
      exact List.chain'_pair.mpr (advance_stage_csi_le s i)
    | cons j l2 =>
      rw [List.scanl_cons]
      simp only [List.singleton_append, List.map_cons]
      refine List.chain'_cons.mpr ⟨advance_stage_csi_le s i, ?_⟩
      have hih := ih ((advance_stage s i).1)
      rw [List.scanl_cons] at hih
      simpa using hih

/-! ## Claims -/

/-- C1: for every sequence of `advance_stage` calls on a session state with
`is_resuming` false, the persisted `current_stage_index` is non-decreasing
along the whole trace, the resumption flag stays false, and at any reachable
state a call changes the index only when the asserted stage equals the
persisted index, in which case the index grows by exactly one. -/
theorem advance_stage_sequence_monotone (s : SessionState) (h : isResuming s = false)
    (calls : List Int) :
    List.Chain' (fun a b => a ≤ b)
      ((calls.scanl (fun t i => (advance_stage t i).1) s).map csi) ∧
    isResuming (runAdvances s calls) = false ∧
    (∀ i : Int,
      csi (advance_stage (runAdvances s calls) i).1 ≠ csi (runAdvances s calls) →
        i = csi (runAdvances s calls) ∧
        csi (advance_stage (runAdvances s calls) i).1 = csi (runAdvances s calls) + 1) := by
  refine ⟨runAdvances_chain s calls, ?_, ?_⟩
  · rw [runAdvances_preserves_resuming]
    exact h
  · intro i hne
    rcases advance_stage_cases (runAdvances s calls) i with hc | ⟨hc, hi, _⟩
    · rw [hc] at hne
      exact absurd rfl hne
    · refine ⟨hi, ?_⟩
      rw [hc]
      show csi { runAdvances s calls with
        current_stage_index := some (csi (runAdvances s calls) + 1) } = _
      simp [csi]

/-- Witness for C1 at a concrete state and call sequence. -/
theorem advance_stage_sequence_monotone_witness :
    isResuming (SessionState.mk (some 0) none none none none none none none [] none) = false ∧
    isResuming (runAdvances
      (SessionState.mk (some 0) none none none none none none none [] none) [0, 1, 5]) = false :=
  ⟨rfl, (advance_stage_sequence_monotone
    (SessionState.mk (some 0) none none none none none none none [] none) rfl [0, 1, 5]).2.1⟩

/-- C2: while `is_resuming` is truthy, `advance_stage` returns the state
completely unchanged together with the resumption control message, for
every asserted stage value — including one equal to the persisted index,
so the resumption check takes precedence over the mismatch check. -/
theorem advance_stage_resuming_no_mutation (s : SessionState) (stage_index : Int)
    (h : s.is_resuming = some true) :
    advance_stage s stage_index = (s, resumptionMessage) := by
  unfold advance_stage
  rw [h]
  simp

/-- Witness for C2: a resuming state whose asserted stage equals the
persisted index still gets the resumption response without mutation. -/
theorem advance_stage_resuming_no_mutation_witness :
    advance_stage (SessionState.mk (some 2) (some true) none none none none none none [] none) 2 =
      (SessionState.mk (some 2) (some true) none none none none none none [] none,
        resumptionMessage) :=
  advance_stage_resuming_no_mutation _ 2 rfl

/-- C3: `finalize_discovery` unconditionally, from any prior state, sets
`workflow_status` to COMPLETED, sets the completion flag and forces
`current_stage_index` to the fixed terminal value 6, one past the last
defined stage (the stage tools assert stages 0 through 5). -/
theorem finalize_discovery_unconditional (s : SessionState) :
    (finalize_discovery s).1.workflow_status = some ("COMPLETED") ∧
    (finalize_discovery s).1.discovery_completed = some true ∧
    (finalize_discovery s).1.current_stage_index = some 6 :=
  ⟨rfl, rfl, rfl⟩

/-- C8: a validated `advance_stage 0` call from persisted index 0 moves the
index to 1 and the returned directive contains "Stage 0 advanced to 1". -/
theorem advance_stage_zero_to_one (s : SessionState)
    (h0 : s.current_stage_index = some 0) (hr : isResuming s = false) :
    (advance_stage s 0).1.current_stage_index = some 1 ∧
    pyIn ("Stage 0 advanced to 1") ((advance_stage s 0).2) = true := by
  unfold isResuming at hr
  have hstep : advance_stage s 0 = ({ s with current_stage_index := some 1 }, advanceMessage 0 1) := by
    unfold advance_stage
    rw [h0, hr]
    norm_num
  rw [hstep]
  refine ⟨rfl, ?_⟩
  show pyIn ("Stage 0 advanced to 1") (advanceMessage 0 1) = true
  decide

/-- Witness for C8 at a concrete state. -/
theorem advance_stage_zero_to_one_witness :
    (advance_stage (SessionState.mk (some 0) none none none none none none none [] none)
        0).1.current_stage_index = some 1 ∧
    pyIn ("Stage 0 advanced to 1")
      ((advance_stage (SessionState.mk (some 0) none none none none none none none [] none)
        0).2) = true :=
  advance_stage_zero_to_one _ rfl rfl

/-- C10: `get_current_stage` returns the string form of the stored
`current_stage_index` (default "0"), writes the default back into the
state when the key was absent, and leaves the state unchanged when the key
was present. -/
theorem get_current_stage_spec (s : SessionState) :
    (get_current_stage s).1 = toString (s.current_stage_index.getD 0) ∧
    (s.current_stage_index = none →
      (get_current_stage s).1 = "0" ∧
      (get_current_stage s).2 = { s with current_stage_index := some 0 }) ∧
    (∀ n : Int, s.current_stage_index = some n → (get_current_stage s).2 = s) := by
  refine ⟨rfl, ?_, ?_⟩
  · intro h
    constructor
    · show toString (s.current_stage_index.getD 0) = "0"
      rw [h]
      rfl
    · simp [get_current_stage, h]
  · intro n h
    simp [get_current_stage, h]

/-- Witness for C10: reading an absent index returns "0" and initializes
the key. -/
theorem get_current_stage_spec_witness :
    (get_current_stage (SessionState.mk none none none none none none none none [] none)).1
        = "0" ∧
    (get_current_stage (SessionState.mk none none none none none none none none [] none)).2
        = SessionState.mk (some 0) none none none none none none none [] none :=
  (get_current_stage_spec _).2.1 rfl

/-- C4: when the stage has no output-key mapping, or its dedicated output
key is absent or empty, fact extraction returns the empty mapping (and,
being a total function, cannot raise), `extracted_data` is left as it was,
and the stage is nevertheless marked completed. -/
theorem stage_transition_empty_output_completes (s : SessionState) (a : String)
    (events : List String) (now : String)
    (h : ∀ key, lookupKey output_key_map a = some key →
          (lookupKey s.outputs key).getD ("") = "") :
    _extract_key_facts_for_stage (_initialize_state_structure s) a = [] ∧
    lookupKey ((stage_transition_callback s a events now).stage_completion.getD []) a =
      some ⟨true, now, events.countP (fun e => decide (e = a))⟩ ∧
    (stage_transition_callback s a events now).extracted_data =
      some (s.extracted_data.getD []) := by
  have hfacts : _extract_key_facts_for_stage (_initialize_state_structure s) a = [] := by
    unfold _extract_key_facts_for_stage
    cases hm : lookupKey output_key_map a with
    | none => rfl
    | some key =>
      have hout := h key hm
      dsimp only
      rw [(init_fields s).1, hout]
      simp
  refine ⟨hfacts, ?_, ?_⟩
  · rw [callback_stage_completion]
    simp [lookupKey_setKey_self]
  · rw [callback_extracted_data, hfacts]
    simp

/-- Witness for C4: completing `CompanyContext` with no stored output
yields no facts but still records completion. -/
theorem stage_transition_empty_output_completes_witness :
    _extract_key_facts_for_stage
      (_initialize_state_structure
        (SessionState.mk none none none none none none none none [] none))
      ("CompanyContext") = [] ∧
    lookupKey ((stage_transition_callback
        (SessionState.mk none none none none none none none none [] none)
        ("CompanyContext") [] ("t0")).stage_completion.getD []) ("CompanyContext") =
      some ⟨true, "t0", 0⟩ ∧
    (stage_transition_callback
        (SessionState.mk none none none none none none none none [] none)
        ("CompanyContext") [] ("t0")).extracted_data = some [] :=
  stage_transition_empty_output_completes
    (SessionState.mk none none none none none none none none [] none)
    ("CompanyContext") [] ("t0") (fun _ _ => rfl)

/-- C5: re-running the stage-transition callback for the same stage (after
the stage rewrote its output) merges the new facts into `extracted_data`
by dict update: extracted keys carry the values of the second call (last write
wins), the fact mapping has no duplicate keys, and every key the second
extraction does not produce — in particular facts of other stages — keeps
its previous value. -/
theorem stage_transition_second_extraction_wins (s : SessionState) (a : String)
    (ev1 ev2 : List String) (t1 t2 : String) (O2 : List (String × String)) (k : String)
    (s1 s1' : SessionState) (facts2 : List (String × PyVal)) (s2 : SessionState)
    (hs1 : s1 = stage_transition_callback s a ev1 t1)
    (hs1' : s1' = { s1 with outputs := O2 })
    (hfacts2 : facts2 = _extract_key_facts_for_stage (_initialize_state_structure s1') a)
    (hs2 : s2 = stage_transition_callback s1' a ev2 t2) :
    (facts2.map Prod.fst).Nodup ∧
    (∀ v, lookupKey facts2 k = some v → lookupKey (s2.extracted_data.getD []) k = some v) ∧
    (lookupKey facts2 k = none →
      lookupKey (s2.extracted_data.getD []) k = lookupKey (s1.extracted_data.getD []) k) := by
  subst hs1 hs1' hfacts2 hs2
  refine ⟨extract_keys_nodup _ _, ?_, ?_⟩
  · intro v hv
    have hne : _extract_key_facts_for_stage
        (_initialize_state_structure
          { stage_transition_callback s a ev1 t1 with outputs := O2 }) a ≠ [] := by
      intro hh
      rw [hh] at hv
      simp [lookupKey] at hv
    rw [callback_extracted_data, Option.getD_some, if_neg hne]
    exact lookupKey_dictUpdate_of_some _ _ _ _ (extract_keys_nodup _ _) hv
  · intro hnone
    rw [callback_extracted_data, Option.getD_some]
    by_cases hf : _extract_key_facts_for_stage
        (_initialize_state_structure
          { stage_transition_callback s a ev1 t1 with outputs := O2 }) a = []
    · rw [if_pos hf]
    · rw [if_neg hf]
      exact lookupKey_dictUpdate_of_none _ _ _ hnone

/-- Witness for C5: the second extraction of `SolutionVision` overwrites
the summary produced by the first one. -/
theorem stage_transition_second_extraction_wins_witness :
    lookupKey ((stage_transition_callback
        { stage_transition_callback
            (SessionState.mk none none none none none none none none
              [("solution_vision", "First thought.")] none)
            ("SolutionVision") [] ("t1") with
          outputs := [("solution_vision", "Second vision uses AI. Tail.")] }
        ("SolutionVision") [] ("t2")).extracted_data.getD []) ("solution_summary") =
      some (PyVal.s ("Second vision uses AI")) :=
  (stage_transition_second_extraction_wins
    (SessionState.mk none none none none none none none none
      [("solution_vision", "First thought.")] none)
    ("SolutionVision") [] [] ("t1") ("t2")
    [("solution_vision", "Second vision uses AI. Tail.")] ("solution_summary")
    _ _ _ _ rfl rfl rfl rfl).2.1
    (PyVal.s ("Second vision uses AI")) (by decide)

/-- C6: after connection B is registered for session S over connection A,
every `send_json` for S can only deliver to B (A receives nothing further
from the registry), and when the transport succeeds the message is
delivered to B exactly. -/
theorem connect_overwrite_delivers_to_new_only
    (m : ConnectionManager) (S : String) (A B : Nat) (hAB : A ≠ B)
    (transport : Nat → PushMessage → Except String Unit) (msg : PushMessage) :
    (∀ ds logs, ((m.connect S A).connect S B).send_json transport S msg = Except.ok (ds, logs) →
      ∀ p ∈ ds, p.1 = B ∧ p.1 ≠ A) ∧
    (transport B msg = Except.ok () →
      ((m.connect S A).connect S B).send_json transport S msg =
        Except.ok ([(B, msg)], ["Sent message to session " ++ S])) := by
  have hlook : lookupKey ((m.connect S A).connect S B).active_connections S = some B := by
    show lookupKey (setKey (setKey m.active_connections S A) S B) S = some B
    exact lookupKey_setKey_self _ _ _
  constructor
  · intro ds logs hsend p hp
    unfold ConnectionManager.send_json at hsend
    rw [hlook] at hsend
    dsimp only at hsend
    cases htr : transport B msg with
    | ok u =>
      rw [htr] at hsend
      simp only [Except.ok.injEq, Prod.mk.injEq] at hsend
      obtain ⟨h1, h2⟩ := hsend
      subst h1
      simp only [List.mem_singleton] at hp
      subst hp
      exact ⟨rfl, Ne.symm hAB⟩
    | error e =>
      rw [htr] at hsend
      simp only [Except.ok.injEq, Prod.mk.injEq] at hsend
      obtain ⟨h1, h2⟩ := hsend
      subst h1
      simp at hp
  · intro htr
    unfold ConnectionManager.send_json
    rw [hlook]
    dsimp only
    rw [htr]

/-- Witness for C6: reconnecting session "s1" from handle 7 to handle 9
routes the next push to 9. -/
theorem connect_overwrite_delivers_to_new_only_witness :
    (ConnectionManager.connect (ConnectionManager.connect ⟨[]⟩ ("s1") 7) ("s1") 9).send_json
        (fun _ _ => Except.ok ()) ("s1") (PushMessage.payload ("hello")) =
      Except.ok ([(9, PushMessage.payload ("hello"))], ["Sent message to session " ++ "s1"]) :=
  (connect_overwrite_delivers_to_new_only ⟨[]⟩ ("s1") 7 9 (by decide)
    (fun _ _ => Except.ok ()) (PushMessage.payload ("hello"))).2 rfl

/-- C7: `send_json` never raises to its caller: it always returns
normally, is a logged no-op on an unregistered session id, and catches and
logs any transport failure instead of propagating it. -/
theorem send_json_never_raises (m : ConnectionManager)
    (transport : Nat → PushMessage → Except String Unit)
    (session_id : String) (message : PushMessage) :
    (∃ r, m.send_json transport session_id message = Except.ok r) ∧
    (lookupKey m.active_connections session_id = none →
      m.send_json transport session_id message =
        Except.ok ([], ["Attempted to send to non-existent session: " ++ session_id])) ∧
    (∀ ws e, lookupKey m.active_connections session_id = some ws →
      transport ws message = Except.error e →
      m.send_json transport session_id message =
        Except.ok ([], ["Failed to send message to session " ++ session_id ++ ": " ++ e])) := by
  unfold ConnectionManager.send_json
  cases hl : lookupKey m.active_connections session_id with
  | none =>
    refine ⟨⟨_, rfl⟩, fun _ => rfl, ?_⟩
    intro ws e hws
    simp at hws
  | some ws0 =>
    refine ⟨?_, ?_, ?_⟩
    · dsimp only
      cases htr : transport ws0 message with
      | ok u => exact ⟨_, rfl⟩
      | error e => exact ⟨_, rfl⟩
    · intro hnone
      simp at hnone
    · intro ws e hws htr
      simp only [Option.some.injEq] at hws
      subst hws
      dsimp only
      rw [htr]

/-- Witness for C7: a registered session whose transport fails still gets
a normal (caught and logged) return. -/
theorem send_json_never_raises_witness :
    ConnectionManager.send_json ⟨[("s1", 3)]⟩ (fun _ _ => Except.error ("boom"))
        ("s1") (PushMessage.stageUpdate 2) =
      Except.ok ([], ["Failed to send message to session " ++ "s1" ++ ": " ++ "boom"]) :=
  (send_json_never_raises ⟨[("s1", 3)]⟩ (fun _ _ => Except.error ("boom"))
    ("s1") (PushMessage.stageUpdate 2)).2.2 3 ("boom") (by decide) rfl

/-! ## Validation lemmas -/

theorem validationErrors_eq_nil_iff (fs : FileSystem) (config : List StageConfigEntry) :
    validationErrors fs config = [] ↔ ∀ st ∈ config, stageErrors fs st = [] := by
  induction config with
  | nil => simp [validationErrors]
  | cons st rest ih =>
    simp only [validationErrors, List.append_eq_nil, List.mem_cons]
    constructor
    · rintro ⟨h1, h2⟩ t ht
      rcases ht with rfl | ht
      · exact h1
      · exact ih.mp h2 t ht
    · intro h
      exact ⟨h st (Or.inl rfl), ih.mpr (fun t ht => h t (Or.inr ht))⟩

/-- C9 counterexample: a configuration whose ids are 5 and 99 — neither
contiguous nor starting at 0 — passes `validate_stage_config` untouched,
because the startup validation never inspects the `id` field beyond using
it in error messages; contiguity of ids is not enforced. -/
theorem validate_accepts_noncontiguous_ids :
    validate_stage_config
      ⟨[instructionPath ("a.md"), instructionPath ("b.md")],
       [instructionPath ("a.md"), instructionPath ("b.md")]⟩
      [⟨some 5, some ("a.md"), some ("da"), some ("complete_program_explanation"), some ("ka")⟩,
       ⟨some 99, some ("b.md"), some ("db"), some ("complete_payment_structure"), some ("kb")⟩] =
      Except.ok () ∧
    ¬ idsContiguousFrom0
      [⟨some 5, some ("a.md"), some ("da"), some ("complete_program_explanation"), some ("ka")⟩,
       ⟨some 99, some ("b.md"), some ("db"), some ("complete_payment_structure"), some ("kb")⟩] := by
  constructor
  · rfl
  · unfold idsContiguousFrom0
    decide

/-- C9 (amended): the startup validation examines every stage entry,
aggregating the error lists entry by entry, succeeds exactly when every
entry passes, and what it enforces per entry is exactly a present
instruction file that exists as a regular file and a tool name registered
in `TOOLS_MAP` — id contiguity is not among the enforced conditions. -/
theorem validate_stage_config_spec (fs : FileSystem) (config : List StageConfigEntry) :
    (validate_stage_config fs config = Except.ok () ↔ ∀ st ∈ config, stageErrors fs st = []) ∧
    (∀ st : StageConfigEntry, stageErrors fs st = [] ↔ stageValid fs st) ∧
    (∀ c1 c2 : List StageConfigEntry,
      validationErrors fs (c1 ++ c2) = validationErrors fs c1 ++ validationErrors fs c2) := by
  refine ⟨?_, ?_, ?_⟩
  · have hiff := validationErrors_eq_nil_iff fs config
    unfold validate_stage_config
    by_cases he : validationErrors fs config = []
    · rw [if_pos he]
      exact iff_of_true rfl (hiff.mp he)
    · rw [if_neg he]
      exact iff_of_false (by simp) (fun hall => he (hiff.mpr hall))
  · intro st
    obtain ⟨id0, if0, d0, tn0, ok0⟩ := st
    unfold stageErrors instructionFileErrors toolNameErrors stageValid
    cases if0 with
    | none =>
      simp
    | some f =>
      cases tn0 with
      | none => simp
      | some t =>
        dsimp only
        split_ifs with h1 h2 h3 h4 h5 <;> simp_all
  · intro c1 c2
    induction c1 with
    | nil => simp [validationErrors]
    | cons st rest ih => simp [validationErrors, ih]

/-- Witness for C9 (amended): a fully valid one-entry configuration is
accepted. -/
theorem validate_stage_config_spec_witness :
    validate_stage_config ⟨[instructionPath ("a.md")], [instructionPath ("a.md")]⟩
      [⟨some 0, some ("a.md"), some ("d"), some ("complete_program_explanation"), some ("k")⟩] =
      Except.ok () :=
  (validate_stage_config_spec
    ⟨[instructionPath ("a.md")], [instructionPath ("a.md")]⟩
    [⟨some 0, some ("a.md"), some ("d"), some ("complete_program_explanation"), some ("k")⟩]).1.mpr
    (by decide)
